import Mathlib

/-
Verification of the authorities registry of the konnect identity provider
(`identity/authorities/registry.go`), shallowly embedded in Lean 4.

The registry holds upstream authority registrations keyed by ID, elects a
default authority while loading a configuration file, and serves immutable
`Details` snapshots.  Go's in-place mutation of `*AuthorityRegistration`
is embedded by explicit state passing: `Register` returns the possibly
mutated authority together with the new registry state and the error, and
`NewRegistry` threads a `LoadState` through the entries.  Go maps are
embedded as association lists with last-write-wins insertion; the `go
authority.Initialize(...)` goroutine launches and the `Warnln` calls are
recorded in the load state as observable effects, since several spec
properties speak about them.
-/

namespace Konnect

/-- The only supported authority type constant (`AuthorityTypeOIDC`). -/
def AuthorityTypeOIDC : String := "oidc"

/-- Modelled from the spec: the fixed default scope baseline used when a
registration leaves `Scopes` empty.  The constant `authorityDefaultScopes`
lives in repository code not present under `src/`; the spec only fixes that
it is a fixed baseline scope set. -/
def authorityDefaultScopes : List String := ["openid", "profile", "email"]

/-- Modelled from the spec: the default `ResponseType` (a fixed
`"code"`-style baseline); the constant itself is in code not under `src/`. -/
def authorityDefaultResponseType : String := "code"

/-- Modelled from the spec: the default PKCE `CodeChallengeMethod`; the
constant itself is in code not under `src/`. -/
def authorityDefaultCodeChallengeMethod : String := "S256"

/-- Modelled from the spec: the default `IdentityClaimName` (claim used to
extract subject identity); the constant itself is in code not under `src/`. -/
def authorityDefaultIdentityClaimName : String := "name"

/-- One configured upstream authority (struct `AuthorityRegistration`).
The struct declaration itself is in repository code not under `src/`; its
fields are modelled from the spec's data-model section: identity fields,
OAuth client identity, behavior flags, OIDC protocol parameters, and the
dynamic discovery-populated block (`ready`, `authorizationEndpoint`,
`validationKeys`).  URLs and key material are embedded as strings. -/
structure AuthorityRegistration where
  ID : String
  Name : String
  AuthorityType : String
  ClientID : String
  ClientSecret : String
  Insecure : Bool
  Default : Bool
  discover : Bool
  IdentityAliasRequired : Bool
  Scopes : List String
  ResponseType : String
  CodeChallengeMethod : String
  IdentityClaimName : String
  ready : Bool
  authorizationEndpoint : String
  validationKeys : List String
  deriving DecidableEq, Repr

/-- Immutable snapshot of a registration (struct `Details`), as built by
`Registry.Lookup`.  The Go zero values of the dynamic fields (`nil` URL,
`nil` key map, `false`) are embedded as `""`, `[]` and `false`. -/
structure Details where
  ID : String
  Name : String
  AuthorityType : String
  ClientID : String
  ClientSecret : String
  Insecure : Bool
  Scopes : List String
  ResponseType : String
  CodeChallengeMethod : String
  AuthorizationEndpoint : String
  validationKeys : List String
  ready : Bool
  Registration : AuthorityRegistration
  deriving DecidableEq, Repr

/-- The deserialized configuration file (struct `RegistryData`): a list of
authority entries in declaration order. -/
structure RegistryData where
  Authorities : List AuthorityRegistration
  deriving DecidableEq, Repr

/-- The registry state (struct `Registry`): the elected default ID and the
`authorities` map, embedded as an association list with unique keys. -/
structure Registry where
  defaultID : String
  authorities : List (String × AuthorityRegistration)
  deriving DecidableEq, Repr

/-- Go map insertion `m[k] = v`: replace the binding of `k` if present,
otherwise append a new binding (last write wins). -/
def insertAuthority : List (String × AuthorityRegistration) → String →
    AuthorityRegistration → List (String × AuthorityRegistration)
  | [], id, a => [(id, a)]
  | (k, v) :: rest, id, a =>
    if k = id then (id, a) :: rest else (k, v) :: insertAuthority rest id a

/-- Go map read `m[k]`: the binding of `k`, if any. -/
def lookupAuthority : List (String × AuthorityRegistration) → String →
    Option AuthorityRegistration
  | [], _ => none
  | (k, v) :: rest, id => if k = id then some v else lookupAuthority rest id

/-- Second half of `Registry.Register` (from the `ClientID` check on):
required-field check, OIDC defaulting, unsupported-type failure, and the
map insert.  Returns (error, new registry, possibly mutated authority). -/
def registerChecked (r : Registry) (a : AuthorityRegistration) :
    Option String × Registry × AuthorityRegistration :=
  if a.ClientID = "" then
    (some "invalid authority client_id", r, a)
  else if a.AuthorityType = AuthorityTypeOIDC then
    let a :=
      { a with
        Scopes := if a.Scopes = [] then authorityDefaultScopes else a.Scopes,
        ResponseType :=
          if a.ResponseType = "" then authorityDefaultResponseType
          else a.ResponseType,
        CodeChallengeMethod :=
          if a.CodeChallengeMethod = "" then authorityDefaultCodeChallengeMethod
          else a.CodeChallengeMethod,
        IdentityClaimName :=
          if a.IdentityClaimName = "" then authorityDefaultIdentityClaimName
          else a.IdentityClaimName }
    (none, { r with authorities := insertAuthority r.authorities a.ID a }, a)
  else
    (some ("unknown authority type: " ++ a.AuthorityType), r, a)

/-- `Registry.Register`: identity resolution (empty `ID` falls back to
`Name`; both empty fails), then `registerChecked`.  The Go method mutates
`authority` and `r.authorities` in place; here the new states are
returned. -/
def Registry.Register (r : Registry) (a : AuthorityRegistration) :
    Option String × Registry × AuthorityRegistration :=
  if a.ID = "" then
    if a.Name ≠ "" then
      registerChecked r { a with ID := a.Name }
    else
      (some "no authority id", r, a)
  else
    registerChecked r a

/-- `Registry.Get`: empty ID is not found; otherwise a map read. -/
def Registry.Get (r : Registry) (authorityID : String) : Option AuthorityRegistration :=
  if authorityID = "" then none
  else lookupAuthority r.authorities authorityID

/-- The `Details` snapshot record built inside `Registry.Lookup`: static
fields copied unconditionally, dynamic fields only when `ready` is set at
snapshot time (Go leaves them at their zero values otherwise). -/
def detailsOf (registration : AuthorityRegistration) : Details :=
  { ID := registration.ID
    Name := registration.Name
    AuthorityType := registration.AuthorityType
    ClientID := registration.ClientID
    ClientSecret := registration.ClientSecret
    Insecure := registration.Insecure
    Scopes := registration.Scopes
    ResponseType := registration.ResponseType
    CodeChallengeMethod := registration.CodeChallengeMethod
    AuthorizationEndpoint :=
      if registration.ready then registration.authorizationEndpoint else ""
    validationKeys :=
      if registration.ready then registration.validationKeys else []
    ready := registration.ready
    Registration := registration }

/-- `Registry.Lookup`: `Get`, then build the `Details` snapshot. -/
def Registry.Lookup (r : Registry) (authorityID : String) : Except String Details :=
  match r.Get authorityID with
  | none => .error ("unknown authority id: " ++ authorityID)
  | some registration => .ok (detailsOf registration)

/-- `Registry.Default`: `Lookup` on `defaultID`, discarding the error
(`authority, _ := r.Lookup(ctx, r.defaultID)`), so an absent default is
`none`, never a failure. -/
def Registry.Default (r : Registry) : Option Details :=
  (r.Lookup r.defaultID).toOption

/-- State threaded through `NewRegistry`'s load loop: the registry under
construction, the `defaultAuthority` candidate local variable, plus two
observable effect logs — the authorities whose `Initialize` goroutine was
launched (`go authority.Initialize(ctx, logger)`), in order, and the
`Warnln` messages emitted, in order. -/
structure LoadState where
  registry : Registry
  defaultAuthority : Option AuthorityRegistration
  launched : List AuthorityRegistration
  warnings : List String
  deriving DecidableEq, Repr

/-- One iteration of `NewRegistry`'s loop over `registryData.Authorities`.
`Validate` is defined in repository code not under `src/`, so its outcome
is passed in as the function `validate` (spec: it checks structural
preconditions only, not the identity/client fields checked by `Register`).
Note the loop computes `registerErr := r.Register(authority)` before
inspecting `validateErr`, so a failed validation still leaves any map
mutation made by `Register` in place. -/
def loadAuthority (validate : AuthorityRegistration → Option String)
    (st : LoadState) (authority : AuthorityRegistration) : LoadState :=
  let validateErr := validate authority
  let res := Registry.Register st.registry authority
  let registerErr := res.1
  let r := res.2.1
  let authority := res.2.2
  if validateErr.isSome then
    { st with
      registry := r,
      warnings :=
        st.warnings ++ ["skipped registration of invalid authority entry"] }
  else if registerErr.isSome then
    { st with
      registry := r,
      warnings :=
        st.warnings ++ ["skipped registration of invalid authority"] }
  else
    let st :=
      if authority.Default ∨ st.defaultAuthority.isNone then
        match st.defaultAuthority with
        | none => { st with defaultAuthority := some authority }
        | some d =>
          if d.Default = false then
            { st with defaultAuthority := some authority }
          else
            { st with
              warnings :=
                st.warnings ++
                  ["ignored default authority flag since already have a default"] }
      else
        { st with
          warnings :=
            st.warnings ++
              ["non-default additional authorities are not supported yet"] }
    { st with registry := r, launched := st.launched ++ [authority] }

/-- The empty load state `NewRegistry` starts from: fresh registry with an
empty map and empty `defaultID`. -/
def initialLoadState : LoadState :=
  { registry := { defaultID := "", authorities := [] }
    defaultAuthority := none
    launched := []
    warnings := [] }

/-- The code after `NewRegistry`'s loop: `defaultID` is set from the
`defaultAuthority` candidate only when that candidate was explicitly
marked `Default`; a candidate without the flag only draws a warning. -/
def finalizeLoad (st : LoadState) : LoadState :=
  match st.defaultAuthority with
  | none => st
  | some defaultAuthority =>
    if defaultAuthority.Default then
      { st with registry := { st.registry with defaultID := defaultAuthority.ID } }
    else
      { st with
        warnings := st.warnings ++ ["non-default authorities are not supported yet"] }

/-- `NewRegistry`: an empty configuration path means no authorities;
otherwise the file is read (`readFile`, `ioutil.ReadFile`) and deserialized
(`unmarshal`, `yaml.Unmarshal`) — both external collaborators passed in as
functions — and either failure is returned as the construction error.  The
entries are then folded through `loadAuthority` and the default election
is finalized by `finalizeLoad`. -/
def NewRegistry (validate : AuthorityRegistration → Option String)
    (readFile : String → Except String String)
    (unmarshal : String → Except String RegistryData)
    (registrationConfFilepath : String) : Except String LoadState := do
  let registryData ←
    if registrationConfFilepath = "" then
      pure ({ Authorities := [] } : RegistryData)
    else do
      let registryFile ← readFile registrationConfFilepath
      unmarshal registryFile
  pure
    (finalizeLoad
      (registryData.Authorities.foldl (loadAuthority validate) initialLoadState))

/-! ### Concrete fixtures used by witnesses and counterexamples -/

/-- A fresh registry with no authorities and no default. -/
def emptyRegistry : Registry := { defaultID := "", authorities := [] }

/-- Builds a configuration entry with the given identity fields, leaving
every optional field at its Go zero value. -/
def mkAuthority (id name clientID : String) (dflt : Bool) : AuthorityRegistration :=
  { ID := id
    Name := name
    AuthorityType := AuthorityTypeOIDC
    ClientID := clientID
    ClientSecret := ""
    Insecure := false
    Default := dflt
    discover := true
    IdentityAliasRequired := false
    Scopes := []
    ResponseType := ""
    CodeChallengeMethod := ""
    IdentityClaimName := ""
    ready := false
    authorizationEndpoint := ""
    validationKeys := [] }

/-- A configuration entry whose fields are all at their Go zero values. -/
def zeroAuthority : AuthorityRegistration := mkAuthority "" "" "" false

/-- A `Validate` outcome that accepts every entry. -/
def validateOK : AuthorityRegistration → Option String := fun _ => none

/-- Modelled from the spec: a `Validate` outcome under which an entry
violates a structural precondition.  `Validate()` itself is defined in
repository code not present under `src/`; the spec states that it checks
structural preconditions only and explicitly not the identity/client
fields checked by `Register`, so an entry can fail `Validate` while
passing every check `Register` makes. -/
def validateReject : AuthorityRegistration → Option String :=
  fun _ => some "structural precondition violated"

/-- A file reader that always fails. -/
def readFileFail : String → Except String String := fun _ => .error "read failed"

/-- A file reader that always yields the same raw bytes. -/
def readFileOK : String → Except String String := fun _ => .ok "raw-conf-bytes"

/-- A deserializer that always fails. -/
def unmarshalFail : String → Except String RegistryData := fun _ => .error "parse failed"

/-- Yields a deserializer returning the given fixed entries. -/
def unmarshalConst (d : RegistryData) : String → Except String RegistryData :=
  fun _ => .ok d

/-- A valid entry (non-empty ID and client) that a structural `Validate`
precondition nevertheless rejects in the C1 scenario. -/
def c1Authority : AuthorityRegistration := mkAuthority "bad" "Bad Authority" "client-bad" false

/-- The load state produced in the C1 scenario: a single entry rejected by
`Validate` but accepted by `Register`. -/
def c1State : LoadState :=
  (NewRegistry validateReject readFileOK
    (unmarshalConst { Authorities := [c1Authority] }) "authorities.yaml").toOption.getD
    initialLoadState

/-- Two entries both marked `Default`, plus one unmarked, for the default
election scenario. -/
def c2Data : RegistryData :=
  { Authorities :=
      [mkAuthority "first" "First" "client-1" false,
       mkAuthority "second" "Second" "client-2" true,
       mkAuthority "third" "Third" "client-3" true] }

/-- The load state produced by the default election scenario. -/
def c2State : LoadState :=
  (NewRegistry validateOK readFileOK (unmarshalConst c2Data)
    "authorities.yaml").toOption.getD initialLoadState

/-- The invariant maintained by `NewRegistry`'s loop state: the
`defaultAuthority` candidate is the first launched entry carrying the
`Default` flag, or the very first launched entry when none carries it;
`defaultID` is still unset; and once two or more launched entries carry
the flag, the duplicate-default warning has been logged. -/
def electionInvariant (st : LoadState) : Prop :=
  (match st.launched.find? (fun x => x.Default) with
   | some d => st.defaultAuthority = some d
   | none => st.defaultAuthority = st.launched.head?) ∧
  st.registry.defaultID = "" ∧
  (2 ≤ (st.launched.filter (fun x => x.Default)).length →
    "ignored default authority flag since already have a default" ∈ st.warnings)

/-! ### Helper lemmas about `Register` and the map operations -/

/-- The error returned by `Register`, as a single case analysis following
the order of the checks in the source. -/
lemma register_error_eq (r : Registry) (a : AuthorityRegistration) :
    (r.Register a).1 =
      (if a.ID = "" ∧ a.Name = "" then some "no authority id"
       else if a.ClientID = "" then some "invalid authority client_id"
       else if a.AuthorityType = AuthorityTypeOIDC then none
       else some ("unknown authority type: " ++ a.AuthorityType)) := by
  unfold Registry.Register registerChecked
  split_ifs <;> simp_all

/-- A failing `Register` leaves the registry untouched. -/
lemma register_failure_frame (r : Registry) (a : AuthorityRegistration)
    (h : (r.Register a).1 ≠ none) : (r.Register a).2.1 = r := by
  unfold Registry.Register registerChecked at *
  split_ifs at * <;> simp_all

/-- A successful `Register` stores the mutated authority under its
effective ID, leaving `defaultID` untouched. -/
lemma register_success_map (r : Registry) (a : AuthorityRegistration)
    (h : (r.Register a).1 = none) :
    ((r.Register a).2.2).ID = (if a.ID = "" then a.Name else a.ID) ∧
    (r.Register a).2.1 =
      { r with
        authorities :=
          insertAuthority r.authorities ((r.Register a).2.2).ID ((r.Register a).2.2) } := by
  unfold Registry.Register registerChecked at *
  split_ifs at * <;> simp_all

/-- Reading back the key just inserted yields the inserted value. -/
lemma lookup_insert_self (m : List (String × AuthorityRegistration))
    (k : String) (v : AuthorityRegistration) :
    lookupAuthority (insertAuthority m k v) k = some v := by
  induction m with
  | nil => simp [insertAuthority, lookupAuthority]
  | cons hd tl ih =>
    by_cases hk : hd.1 = k <;> simp [insertAuthority, lookupAuthority, hk, ih]

/-- `Register` never touches `defaultID`. -/
lemma register_defaultID (r : Registry) (a : AuthorityRegistration) :
    ((r.Register a).2.1).defaultID = r.defaultID := by
  unfold Registry.Register registerChecked
  split_ifs <;> simp

/-- One iteration of the load loop preserves the election invariant. -/
lemma loadAuthority_invariant (validate : AuthorityRegistration → Option String)
    (st : LoadState) (a : AuthorityRegistration) (h : electionInvariant st) :
    electionInvariant (loadAuthority validate st a) := by
  obtain ⟨h1, h2, h3⟩ := h
  by_cases hv : (validate a).isSome
  · have hres : loadAuthority validate st a =
        { st with
          registry := (Registry.Register st.registry a).2.1,
          warnings := st.warnings ++ ["skipped registration of invalid authority entry"] } := by
      simp [loadAuthority, hv]
    rw [hres]
    refine ⟨h1, ?_, fun hc => List.mem_append_left _ (h3 hc)⟩
    rw [register_defaultID]
    exact h2
  · by_cases hr : ((Registry.Register st.registry a).1).isSome
    · have hres : loadAuthority validate st a =
          { st with
            registry := (Registry.Register st.registry a).2.1,
            warnings := st.warnings ++ ["skipped registration of invalid authority"] } := by
        simp [loadAuthority, hv, hr]
      rw [hres]
      refine ⟨h1, ?_, fun hc => List.mem_append_left _ (h3 hc)⟩
      rw [register_defaultID]
      exact h2
    · -- successful registration: the entry is launched and takes part in
      -- the default election
      have hdID : ((Registry.Register st.registry a).2.1).defaultID = "" := by
        rw [register_defaultID]; exact h2
      cases hfind : st.launched.find? (fun x => x.Default) with
      | some d =>
        rw [hfind] at h1
        have hd : d.Default = true := List.find?_some hfind
        by_cases ha : ((Registry.Register st.registry a).2.2).Default
        · have hres : loadAuthority validate st a =
              { st with
                registry := (Registry.Register st.registry a).2.1,
                launched := st.launched ++ [(Registry.Register st.registry a).2.2],
                warnings :=
                  st.warnings ++
                    ["ignored default authority flag since already have a default"] } := by
            simp [loadAuthority, hv, hr, h1, ha, hd]
          rw [hres]
          refine ⟨?_, hdID, ?_⟩
          · simp only [List.find?_append, hfind, Option.or_some, h1]
          · intro _
            exact List.mem_append_right _ (by simp)
        · have hres : loadAuthority validate st a =
              { st with
                registry := (Registry.Register st.registry a).2.1,
                launched := st.launched ++ [(Registry.Register st.registry a).2.2],
                warnings :=
                  st.warnings ++
                    ["non-default additional authorities are not supported yet"] } := by
            simp [loadAuthority, hv, hr, h1, ha]
          rw [hres]
          refine ⟨?_, hdID, ?_⟩
          · simp only [List.find?_append, hfind, Option.or_some, h1]
          · intro hc
            refine List.mem_append_left _ (h3 ?_)
            simpa [List.filter_append, ha] using hc
      | none =>
        rw [hfind] at h1
        have hnone : ∀ x ∈ st.launched, ¬x.Default = true := List.find?_eq_none.mp hfind
        have hfilter : st.launched.filter (fun x => x.Default) = [] :=
          List.filter_eq_nil_iff.mpr hnone
        cases hlaunch : st.launched with
        | nil =>
          rw [hlaunch] at h1
          have hres : loadAuthority validate st a =
              { st with
                registry := (Registry.Register st.registry a).2.1,
                defaultAuthority := some ((Registry.Register st.registry a).2.2),
                launched := st.launched ++ [(Registry.Register st.registry a).2.2] } := by
            simp [loadAuthority, hv, hr, h1]
          rw [hres]
          refine ⟨?_, hdID, ?_⟩
          · rw [hlaunch]
            by_cases ha : ((Registry.Register st.registry a).2.2).Default <;> simp [ha]
          · intro hc
            rw [hlaunch] at hc
            by_cases ha : ((Registry.Register st.registry a).2.2).Default <;>
              simp [ha] at hc
        | cons hh tl =>
          have hhd : ¬hh.Default = true := hnone hh (by rw [hlaunch]; simp)
          rw [hlaunch] at h1
          simp only [List.head?_cons] at h1
          by_cases ha : ((Registry.Register st.registry a).2.2).Default
          · have hres : loadAuthority validate st a =
                { st with
                  registry := (Registry.Register st.registry a).2.1,
                  defaultAuthority := some ((Registry.Register st.registry a).2.2),
                  launched := st.launched ++ [(Registry.Register st.registry a).2.2] } := by
              simp [loadAuthority, hv, hr, h1, ha, hhd]
            rw [hres]
            refine ⟨?_, hdID, ?_⟩
            · simp [List.find?_append, hfind, ha]
            · intro hc
              simp [List.filter_append, hfilter, ha] at hc
          · have hres : loadAuthority validate st a =
                { st with
                  registry := (Registry.Register st.registry a).2.1,
                  launched := st.launched ++ [(Registry.Register st.registry a).2.2],
                  warnings :=
                    st.warnings ++
                      ["non-default additional authorities are not supported yet"] } := by
              simp [loadAuthority, hv, hr, h1, ha]
            rw [hres]
            refine ⟨?_, hdID, ?_⟩
            · have hfa :
                  (st.launched ++ [(Registry.Register st.registry a).2.2]).find?
                      (fun x => x.Default) = none := by
                simp [List.find?_append, hfind, ha]
              simp only [hfa]
              rw [h1, hlaunch]
              simp
            · intro hc
              simp [List.filter_append, hfilter, ha] at hc

/-- The load loop preserves the election invariant along any entry list. -/
lemma foldl_load_invariant (validate : AuthorityRegistration → Option String)
    (l : List AuthorityRegistration) (st : LoadState) (h : electionInvariant st) :
    electionInvariant (l.foldl (loadAuthority validate) st) := by
  induction l generalizing st with
  | nil => exact h
  | cons a tl ih => exact ih _ (loadAuthority_invariant validate st a h)

/-- The fresh load state satisfies the election invariant. -/
lemma initial_invariant : electionInvariant initialLoadState := by
  refine ⟨?_, rfl, ?_⟩ <;> simp [initialLoadState, electionInvariant]

/-- `finalizeLoad` of an invariant state: `defaultID` becomes the ID of
the first launched entry carrying `Default`, or stays empty. -/
lemma finalize_defaultID (st : LoadState) (h : electionInvariant st) :
    (finalizeLoad st).registry.defaultID =
      (match (finalizeLoad st).launched.find? (fun x => x.Default) with
       | some d => d.ID
       | none => "") ∧
    (2 ≤ ((finalizeLoad st).launched.filter (fun x => x.Default)).length →
      "ignored default authority flag since already have a default" ∈
        (finalizeLoad st).warnings) := by
  obtain ⟨h1, h2, h3⟩ := h
  unfold finalizeLoad
  cases hda : st.defaultAuthority with
  | none =>
    cases hfind : st.launched.find? (fun x => x.Default) with
    | some d => rw [hfind, hda] at h1; exact absurd h1 (by simp)
    | none => exact ⟨by simp [hfind, h2], h3⟩
  | some d =>
    by_cases hd : d.Default
    · cases hfind : st.launched.find? (fun x => x.Default) with
      | some d2 =>
        rw [hfind, hda] at h1
        obtain rfl : d = d2 := by injection h1
        exact ⟨by simp [hfind, hd], by simpa [hd] using h3⟩
      | none =>
        rw [hfind, hda] at h1
        have hmem : d ∈ st.launched :=
          List.mem_of_mem_head? (by rw [← h1]; rfl)
        have := List.find?_eq_none.mp hfind d hmem
        exact absurd hd this
    · cases hfind : st.launched.find? (fun x => x.Default) with
      | some d2 =>
        rw [hfind, hda] at h1
        obtain rfl : d = d2 := by injection h1
        exact absurd (List.find?_some hfind) hd
      | none =>
        refine ⟨by simp [hfind, hd, h2], ?_⟩
        intro hc
        simp only [hd, if_neg, Bool.false_eq_true, not_false_eq_true] at hc ⊢
        exact List.mem_append_left _ (h3 (by simpa using hc))

/-- A successful `NewRegistry` run yields the finalized fold of some
entry list. -/
lemma newRegistry_ok (validate : AuthorityRegistration → Option String)
    (readFile : String → Except String String)
    (unmarshal : String → Except String RegistryData) (path : String)
    (st : LoadState) (h : NewRegistry validate readFile unmarshal path = .ok st) :
    ∃ entries : List AuthorityRegistration,
      st = finalizeLoad (entries.foldl (loadAuthority validate) initialLoadState) := by
  by_cases hp : path = ""
  · refine ⟨[], ?_⟩
    simp [NewRegistry, hp, Bind.bind, Except.bind, pure, Except.pure] at h
    exact h.symm
  · cases hr : readFile path with
    | error e => simp [NewRegistry, hp, hr, Bind.bind, Except.bind] at h
    | ok s =>
      cases hu : unmarshal s with
      | error e => simp [NewRegistry, hp, hr, hu, Bind.bind, Except.bind] at h
      | ok d =>
        refine ⟨d.Authorities, ?_⟩
        simp [NewRegistry, hp, hr, hu, Bind.bind, Except.bind, pure, Except.pure] at h
        exact h.symm

/-! ### Claims -/

/-- C3 counterexample: on the entry whose fields are all empty, `Register`
fails with the identifier error, not with the client error, even though
`ClientID` is empty — so "fails with a client error if and only if
`ClientID` is empty" is false as stated. -/
theorem C3_error_iff_counterexample :
    zeroAuthority.ClientID = "" ∧
    (emptyRegistry.Register zeroAuthority).1 = some "no authority id" ∧
    ¬(emptyRegistry.Register zeroAuthority).1 = some "invalid authority client_id" := by
  decide

/-- C3 (amended): the three `Register` failures are checked in order —
the identifier error exactly when `ID` and `Name` are both empty;
otherwise the client error exactly when `ClientID` is empty; otherwise
the unsupported-type error, naming the offending type, exactly when
`AuthorityType` is not OIDC; otherwise success — and any failure leaves
the registry's map unchanged. -/
theorem C3_register_error_precedence (r : Registry) (a : AuthorityRegistration) :
    ((r.Register a).1 =
      (if a.ID = "" ∧ a.Name = "" then some "no authority id"
       else if a.ClientID = "" then some "invalid authority client_id"
       else if a.AuthorityType = AuthorityTypeOIDC then none
       else some ("unknown authority type: " ++ a.AuthorityType))) ∧
    ((r.Register a).1 ≠ none → (r.Register a).2.1 = r) :=
  ⟨register_error_eq r a, register_failure_frame r a⟩

/-- C3 witness: the amended characterization evaluated on a concrete
failing registration. -/
theorem C3_register_error_precedence_witness :
    ((emptyRegistry.Register (mkAuthority "w3" "W3" "" false)).1 =
        some "invalid authority client_id" ∧
      (emptyRegistry.Register (mkAuthority "w3" "W3" "" false)).2.1 = emptyRegistry) :=
  ⟨by
    have h := (C3_register_error_precedence emptyRegistry (mkAuthority "w3" "W3" "" false)).1
    simpa using h,
   (C3_register_error_precedence emptyRegistry (mkAuthority "w3" "W3" "" false)).2
     (by decide)⟩

/-- C5: on every registration accepted by `Register`, each OIDC parameter
left empty by the caller is filled with its fixed default, and each one
supplied non-empty is kept exactly as supplied. -/
theorem C5_oidc_defaulting (r : Registry) (a : AuthorityRegistration)
    (h : (r.Register a).1 = none) :
    ((r.Register a).2.2).AuthorityType = AuthorityTypeOIDC ∧
    ((r.Register a).2.2).Scopes =
      (if a.Scopes = [] then authorityDefaultScopes else a.Scopes) ∧
    ((r.Register a).2.2).ResponseType =
      (if a.ResponseType = "" then authorityDefaultResponseType else a.ResponseType) ∧
    ((r.Register a).2.2).CodeChallengeMethod =
      (if a.CodeChallengeMethod = "" then authorityDefaultCodeChallengeMethod
       else a.CodeChallengeMethod) ∧
    ((r.Register a).2.2).IdentityClaimName =
      (if a.IdentityClaimName = "" then authorityDefaultIdentityClaimName
       else a.IdentityClaimName) := by
  unfold Registry.Register registerChecked at *
  split_ifs at * <;> simp_all

/-- C5 witness: defaulting evaluated on a concrete accepted registration
that leaves all four OIDC parameters empty. -/
theorem C5_oidc_defaulting_witness :
    (emptyRegistry.Register (mkAuthority "w5" "W5" "client-5" false)).1 = none ∧
    ((emptyRegistry.Register (mkAuthority "w5" "W5" "client-5" false)).2.2).AuthorityType =
        AuthorityTypeOIDC ∧
    ((emptyRegistry.Register (mkAuthority "w5" "W5" "client-5" false)).2.2).Scopes =
      (if (mkAuthority "w5" "W5" "client-5" false).Scopes = [] then authorityDefaultScopes
       else (mkAuthority "w5" "W5" "client-5" false).Scopes) ∧
    ((emptyRegistry.Register (mkAuthority "w5" "W5" "client-5" false)).2.2).ResponseType =
      (if (mkAuthority "w5" "W5" "client-5" false).ResponseType = ""
       then authorityDefaultResponseType
       else (mkAuthority "w5" "W5" "client-5" false).ResponseType) ∧
    ((emptyRegistry.Register (mkAuthority "w5" "W5" "client-5" false)).2.2).CodeChallengeMethod =
      (if (mkAuthority "w5" "W5" "client-5" false).CodeChallengeMethod = ""
       then authorityDefaultCodeChallengeMethod
       else (mkAuthority "w5" "W5" "client-5" false).CodeChallengeMethod) ∧
    ((emptyRegistry.Register (mkAuthority "w5" "W5" "client-5" false)).2.2).IdentityClaimName =
      (if (mkAuthority "w5" "W5" "client-5" false).IdentityClaimName = ""
       then authorityDefaultIdentityClaimName
       else (mkAuthority "w5" "W5" "client-5" false).IdentityClaimName) :=
  ⟨by decide,
   C5_oidc_defaulting emptyRegistry (mkAuthority "w5" "W5" "client-5" false) (by decide)⟩

/-- C10: `Register` changes at most `ID` (only when it was empty, setting
it to `Name`) and the four OIDC-defaultable parameters (each only when it
was empty); every other field of the argument is returned unchanged,
whether registration succeeds or fails. -/
theorem C10_register_frame (r : Registry) (a : AuthorityRegistration) :
    ((r.Register a).2.2).Name = a.Name ∧
    ((r.Register a).2.2).AuthorityType = a.AuthorityType ∧
    ((r.Register a).2.2).ClientID = a.ClientID ∧
    ((r.Register a).2.2).ClientSecret = a.ClientSecret ∧
    ((r.Register a).2.2).Insecure = a.Insecure ∧
    ((r.Register a).2.2).Default = a.Default ∧
    ((r.Register a).2.2).discover = a.discover ∧
    ((r.Register a).2.2).IdentityAliasRequired = a.IdentityAliasRequired ∧
    ((r.Register a).2.2).ready = a.ready ∧
    ((r.Register a).2.2).authorizationEndpoint = a.authorizationEndpoint ∧
    ((r.Register a).2.2).validationKeys = a.validationKeys ∧
    (((r.Register a).2.2).ID = a.ID ∨ (a.ID = "" ∧ ((r.Register a).2.2).ID = a.Name)) ∧
    (((r.Register a).2.2).Scopes = a.Scopes ∨
      (a.Scopes = [] ∧ ((r.Register a).2.2).Scopes = authorityDefaultScopes)) ∧
    (((r.Register a).2.2).ResponseType = a.ResponseType ∨
      (a.ResponseType = "" ∧
        ((r.Register a).2.2).ResponseType = authorityDefaultResponseType)) ∧
    (((r.Register a).2.2).CodeChallengeMethod = a.CodeChallengeMethod ∨
      (a.CodeChallengeMethod = "" ∧
        ((r.Register a).2.2).CodeChallengeMethod = authorityDefaultCodeChallengeMethod)) ∧
    (((r.Register a).2.2).IdentityClaimName = a.IdentityClaimName ∨
      (a.IdentityClaimName = "" ∧
        ((r.Register a).2.2).IdentityClaimName = authorityDefaultIdentityClaimName)) := by
  unfold Registry.Register registerChecked
  split_ifs <;> simp_all

/-- C4: `Lookup` fails with the unknown-authority error naming the ID
exactly when the ID is empty or absent from the map; on a stored
registration it returns, without error, a `Details` whose static fields
equal the registration's and whose dynamic fields reflect `ready` at
snapshot time — copied when `ready` is set, left empty (with
`ready = false`) otherwise. -/
theorem C4_lookup_spec (r : Registry) (authorityID : String) :
    (r.Lookup authorityID = .error ("unknown authority id: " ++ authorityID) ↔
      (authorityID = "" ∨ lookupAuthority r.authorities authorityID = none)) ∧
    (∀ reg, r.Get authorityID = some reg →
      ∃ d, r.Lookup authorityID = .ok d ∧
        d.ID = reg.ID ∧ d.Name = reg.Name ∧ d.AuthorityType = reg.AuthorityType ∧
        d.ClientID = reg.ClientID ∧ d.ClientSecret = reg.ClientSecret ∧
        d.Insecure = reg.Insecure ∧ d.Scopes = reg.Scopes ∧
        d.ResponseType = reg.ResponseType ∧
        d.CodeChallengeMethod = reg.CodeChallengeMethod ∧
        d.ready = reg.ready ∧
        (reg.ready = true →
          d.AuthorizationEndpoint = reg.authorizationEndpoint ∧
          d.validationKeys = reg.validationKeys) ∧
        (reg.ready = false →
          d.AuthorizationEndpoint = "" ∧ d.validationKeys = [] ∧ d.ready = false)) := by
  constructor
  · unfold Registry.Lookup Registry.Get
    by_cases hid : authorityID = ""
    · simp [hid]
    · cases hl : lookupAuthority r.authorities authorityID <;> simp [hid, hl]
  · intro reg hreg
    refine ⟨detailsOf reg, ?_, ?_⟩
    · unfold Registry.Lookup
      rw [hreg]
    · cases hready : reg.ready <;> simp [detailsOf, hready]

/-- C4 witness: the success branch evaluated on a registry holding one
not-yet-ready registration. -/
theorem C4_lookup_spec_witness :
    ∃ d,
      Registry.Lookup
          { defaultID := "", authorities := [("w4", mkAuthority "w4" "W4" "client-4" false)] }
          "w4" = .ok d ∧
        d.ID = (mkAuthority "w4" "W4" "client-4" false).ID ∧
        d.Name = (mkAuthority "w4" "W4" "client-4" false).Name ∧
        d.AuthorityType = (mkAuthority "w4" "W4" "client-4" false).AuthorityType ∧
        d.ClientID = (mkAuthority "w4" "W4" "client-4" false).ClientID ∧
        d.ClientSecret = (mkAuthority "w4" "W4" "client-4" false).ClientSecret ∧
        d.Insecure = (mkAuthority "w4" "W4" "client-4" false).Insecure ∧
        d.Scopes = (mkAuthority "w4" "W4" "client-4" false).Scopes ∧
        d.ResponseType = (mkAuthority "w4" "W4" "client-4" false).ResponseType ∧
        d.CodeChallengeMethod = (mkAuthority "w4" "W4" "client-4" false).CodeChallengeMethod ∧
        d.ready = (mkAuthority "w4" "W4" "client-4" false).ready ∧
        ((mkAuthority "w4" "W4" "client-4" false).ready = true →
          d.AuthorizationEndpoint =
              (mkAuthority "w4" "W4" "client-4" false).authorizationEndpoint ∧
          d.validationKeys = (mkAuthority "w4" "W4" "client-4" false).validationKeys) ∧
        ((mkAuthority "w4" "W4" "client-4" false).ready = false →
          d.AuthorizationEndpoint = "" ∧ d.validationKeys = [] ∧ d.ready = false) :=
  (C4_lookup_spec
      { defaultID := "", authorities := [("w4", mkAuthority "w4" "W4" "client-4" false)] }
      "w4").2
    (mkAuthority "w4" "W4" "client-4" false) (by decide)

/-- C6: two individually valid entries resolving to the same effective ID
both register without error, and afterwards the map binds that ID to the
second (possibly defaulted) entry — a silent last-write-wins overwrite. -/
theorem C6_last_write_wins (r : Registry) (a b : AuthorityRegistration)
    (hIDa : ¬(a.ID = "" ∧ a.Name = "")) (hCa : a.ClientID ≠ "")
    (hTa : a.AuthorityType = AuthorityTypeOIDC)
    (hIDb : ¬(b.ID = "" ∧ b.Name = "")) (hCb : b.ClientID ≠ "")
    (hTb : b.AuthorityType = AuthorityTypeOIDC)
    (hEq : (if a.ID = "" then a.Name else a.ID) = (if b.ID = "" then b.Name else b.ID)) :
    (r.Register a).1 = none ∧
    (((r.Register a).2.1).Register b).1 = none ∧
    lookupAuthority ((((r.Register a).2.1).Register b).2.1).authorities
        (if a.ID = "" then a.Name else a.ID) =
      some ((((r.Register a).2.1).Register b).2.2) := by
  have ha : (r.Register a).1 = none := by
    rw [register_error_eq]
    simp [hIDa, hCa, hTa]
  have hb : (((r.Register a).2.1).Register b).1 = none := by
    rw [register_error_eq]
    simp [hIDb, hCb, hTb]
  obtain ⟨hbid, hbmap⟩ := register_success_map ((r.Register a).2.1) b hb
  refine ⟨ha, hb, ?_⟩
  rw [hbmap, hEq, ← hbid]
  exact lookup_insert_self _ _ _

/-- C6 witness: both hypotheses and the conclusion evaluated on two
concrete entries, the second reachable under the first's effective ID. -/
theorem C6_last_write_wins_witness :
    (emptyRegistry.Register (mkAuthority "" "shared" "client-a" false)).1 = none ∧
    (((emptyRegistry.Register (mkAuthority "" "shared" "client-a" false)).2.1).Register
        (mkAuthority "shared" "Other" "client-b" false)).1 = none ∧
    lookupAuthority
        ((((emptyRegistry.Register (mkAuthority "" "shared" "client-a" false)).2.1).Register
            (mkAuthority "shared" "Other" "client-b" false)).2.1).authorities
        (if (mkAuthority "" "shared" "client-a" false).ID = ""
         then (mkAuthority "" "shared" "client-a" false).Name
         else (mkAuthority "" "shared" "client-a" false).ID) =
      some
        ((((emptyRegistry.Register (mkAuthority "" "shared" "client-a" false)).2.1).Register
            (mkAuthority "shared" "Other" "client-b" false)).2.2) :=
  C6_last_write_wins emptyRegistry
    (mkAuthority "" "shared" "client-a" false) (mkAuthority "shared" "Other" "client-b" false)
    (by decide) (by decide) (by decide) (by decide) (by decide) (by decide) (by decide)

/-- C7: `Default` returns `none` when no default was elected
(`defaultID` empty) — the Go method has no error channel, so absence is
never a failure — and returns the stored authority's `Details` snapshot
when `defaultID` is bound in the map. -/
theorem C7_default_lookup (r : Registry) :
    (r.defaultID = "" → r.Default = none) ∧
    (∀ reg, r.Get r.defaultID = some reg → r.Default = some (detailsOf reg)) := by
  constructor
  · intro h
    simp [Registry.Default, Registry.Lookup, Registry.Get, h, Except.toOption]
  · intro reg hreg
    simp [Registry.Default, Registry.Lookup, hreg, Except.toOption]

/-- C7 witness: both branches evaluated concretely — the empty-default
registry yields `none`, a registry whose default is bound yields the
snapshot. -/
theorem C7_default_lookup_witness :
    emptyRegistry.Default = none ∧
    Registry.Default
        { defaultID := "w7", authorities := [("w7", mkAuthority "w7" "W7" "client-7" true)] } =
      some (detailsOf (mkAuthority "w7" "W7" "client-7" true)) :=
  ⟨(C7_default_lookup emptyRegistry).1 rfl,
   (C7_default_lookup
       { defaultID := "w7", authorities := [("w7", mkAuthority "w7" "W7" "client-7" true)] }).2
     (mkAuthority "w7" "W7" "client-7" true) (by decide)⟩

/-- C8: an empty configuration path yields, without error, the fresh
registry with zero authorities, empty `defaultID` and an absent default;
a non-empty path whose read fails, or whose content fails to deserialize,
propagates that error and yields no registry. -/
theorem C8_construction (validate : AuthorityRegistration → Option String)
    (readFile : String → Except String String)
    (unmarshal : String → Except String RegistryData) (path : String) :
    (NewRegistry validate readFile unmarshal "" = .ok initialLoadState ∧
      initialLoadState.registry.authorities = [] ∧
      initialLoadState.registry.defaultID = "" ∧
      initialLoadState.registry.Default = none) ∧
    (∀ e, path ≠ "" → readFile path = .error e →
      NewRegistry validate readFile unmarshal path = .error e) ∧
    (∀ s e, path ≠ "" → readFile path = .ok s → unmarshal s = .error e →
      NewRegistry validate readFile unmarshal path = .error e) := by
  refine ⟨⟨rfl, rfl, rfl, rfl⟩, ?_, ?_⟩
  · intro e hpath hread
    simp [NewRegistry, hpath, hread, Bind.bind, Except.bind]
  · intro s e hpath hread hparse
    simp [NewRegistry, hpath, hread, hparse, Bind.bind, Except.bind]

/-- C2: after any successful `NewRegistry` run, `defaultID` equals the ID
of the first successfully registered (launched) entry marked `Default`;
later `Default`-flagged entries are ignored in favor of it, with the
duplicate-default warning logged once two or more registered entries carry
the flag; and when no registered entry carries the flag, `defaultID` stays
empty — a first entry without the flag is never promoted. -/
theorem C2_default_election (validate : AuthorityRegistration → Option String)
    (readFile : String → Except String String)
    (unmarshal : String → Except String RegistryData) (path : String)
    (st : LoadState) (h : NewRegistry validate readFile unmarshal path = .ok st) :
    st.registry.defaultID =
      (match st.launched.find? (fun x => x.Default) with
       | some d => d.ID
       | none => "") ∧
    (2 ≤ (st.launched.filter (fun x => x.Default)).length →
      "ignored default authority flag since already have a default" ∈ st.warnings) := by
  obtain ⟨entries, rfl⟩ := newRegistry_ok validate readFile unmarshal path st h
  exact finalize_defaultID _
    (foldl_load_invariant validate entries initialLoadState initial_invariant)

/-- C2 witness: the election evaluated on a concrete load of three
entries — one unflagged, then two flagged `Default` — where the first
flagged entry wins and the duplicate draws the warning. -/
theorem C2_default_election_witness :
    c2State.registry.defaultID =
      (match c2State.launched.find? (fun x => x.Default) with
       | some d => d.ID
       | none => "") ∧
    (2 ≤ (c2State.launched.filter (fun x => x.Default)).length →
      "ignored default authority flag since already have a default" ∈ c2State.warnings) :=
  C2_default_election validateOK readFileOK (unmarshalConst c2Data) "authorities.yaml"
    c2State rfl

/-- C1: divergence witness.  In a load whose single entry fails
`Validate()` but passes every check made by `Register`, the loop logs the
"skipped registration" warning, skips default election and skips the
discovery launch — but because the code runs `Register` before inspecting
the validation error, the entry nevertheless ends up in the authorities
map, contradicting both the warning's wording and the skip contract. -/
theorem C1_validate_skip_divergence :
    NewRegistry validateReject readFileOK
        (unmarshalConst { Authorities := [c1Authority] }) "authorities.yaml" =
      .ok c1State ∧
    validateReject c1Authority ≠ none ∧
    (lookupAuthority c1State.registry.authorities "bad").isSome = true ∧
    c1State.warnings = ["skipped registration of invalid authority entry"] ∧
    c1State.launched = [] ∧
    c1State.registry.defaultID = "" :=
  ⟨rfl, by decide, by decide, by decide, by decide, by decide⟩

/-- C8 witness: the failure branches evaluated with concrete failing
reader and deserializer. -/
theorem C8_construction_witness :
    NewRegistry validateOK readFileFail unmarshalFail "authorities.yaml" =
        .error "read failed" ∧
    NewRegistry validateOK readFileOK unmarshalFail "authorities.yaml" =
      .error "parse failed" :=
  ⟨(C8_construction validateOK readFileFail unmarshalFail "authorities.yaml").2.1
      "read failed" (by decide) rfl,
   (C8_construction validateOK readFileOK unmarshalFail "authorities.yaml").2.2
     "raw-conf-bytes" "parse failed" (by decide) rfl rfl⟩

end Konnect
